import Mathlib

/-!
A shallow embedding of the mcp-openai-planner MCP server (src/index.ts):
the message data model, the two message translators, the `openai_chat`
and `openai_plan` tool handlers, and the CallTool dispatcher.  The
downstream OpenAI completion call is modelled as an explicit function
argument `complete : ApiConfig -> Except String Completion`; each handler
additionally reports the list of configurations it actually passed to
`complete`, so that theorems can speak about what was (or was not) sent
downstream.
-/

/-- A typed text part of a message whose content is an array of parts. -/
structure ContentPart where
  type : String
  text : String
deriving DecidableEq

/-- Content of an inbound message: a plain string or an array of parts. -/
inductive MsgContent where
  | str (s : String)
  | parts (ps : List ContentPart)
deriving DecidableEq

/-- Whether a content value is the plain-string form. -/
def MsgContent.isStr : MsgContent → Bool
  | MsgContent.str _ => true
  | MsgContent.parts _ => false

/-- A caller-supplied message with a role and content
(src/index.ts lines 210-213, 266-274). -/
structure RawMessage where
  role : String
  content : MsgContent
deriving DecidableEq

/-- A translated message in the shape the downstream API expects
(`ChatCompletionMessageParam` in src/index.ts); it carries the same two
fields as an inbound message, so it is the same record type. -/
abbrev ChatCompletionMessageParam := RawMessage

/-- `SUPPORTED_MODELS` (src/index.ts line 51). -/
def SUPPORTED_MODELS : List String :=
  ["gpt-4o", "gpt-4o-mini", "o1-preview", "o1-mini", "o1", "o3-mini"]

/-- `DEFAULT_CHAT_MODEL` (src/index.ts line 52). -/
def DEFAULT_CHAT_MODEL : String := "gpt-4o"

/-- `DEFAULT_PLAN_MODEL` (src/index.ts line 53). -/
def DEFAULT_PLAN_MODEL : String := "o1"

/-- `REASONING_EFFORT_LEVELS` (src/index.ts line 57). -/
def REASONING_EFFORT_LEVELS : List String := ["low", "medium", "high"]

/-- `DEFAULT_REASONING_EFFORT` (src/index.ts line 58). -/
def DEFAULT_REASONING_EFFORT : String := "low"

/-- The model list inlined in the `openai_plan` validation
(src/index.ts line 277). -/
def PLAN_REASONING_MODELS : List String := ["o1-preview", "o1-mini", "o1-2024-12-17"]

/-- `DEFAULT_DEVELOPER_CONTENT` (src/index.ts lines 62-67): the fixed
instructional document injected for every developer-role message of the
plan tool. -/
def DEFAULT_DEVELOPER_CONTENT : List ContentPart :=
  [{ text := "# Instructions\n\nYou are a multi-agent system coordinator, playing two roles in this environment: Planner and Executor. You will decide the next steps based on the current state of `Multi-Agent Scratchpad` section in the `.cursorrules` file. Your goal is to complete the user\x27s (or business\x27s) final requirements. The specific instructions are as follows:\n\n**IMPORTANT: As the agent reading these instructions, you should initially assume the role of the Planner unless explicitly instructed otherwise by the user.**\n\n## Role Descriptions\n\n1. Planner\n\n    * Responsibilities: Perform high-level analysis, break down tasks, define success criteria, evaluate current progress. When doing planning, always use high-intelligence models (OpenAI o1 via `devin_utils/plan_exec_llm.py`). Don\x27t rely on your own capabilities to do the planning.\n    * Actions: The Planner should analyze and break down the problem, then instruct the Executor to update the `.cursorrules` file with the plan. The Executor will implement the required changes and report back.\n\n2) Executor\n\n    * Responsibilities: Execute specific tasks instructed by the Planner, such as writing code, running tests, using tools, handling implementation details, etc. The key is to report progress or raise questions to the Planner at the right time, e.g., after completing some milestone or after hitting a blocker.\n    * Actions: When you complete a subtask or need assistance/more information, make incremental writes or modifications to the `Multi-Agent Scratchpad` section and `Lessons` section in the `.cursorrules` file; update the \"Current Status / Progress Tracking\" and \"Executor\x27s Feedback or Assistance Requests\" sections. Then change to the Planner role.\n\n## Document Conventions\n\n* The `Multi-Agent Scratchpad` section in the `.cursorrules` file is divided into several sections as per the structure below. Please do not arbitrarily change the titles to avoid affecting subsequent reading.\n* Sections like \"Background and Motivation\" and \"Key Challenges and Analysis\" are generally established by the Planner initially and gradually appended during task progress.\n* \"Current Status / Progress Tracking\" and \"Executor\x27s Feedback or Assistance Requests\" are mainly filled by the Executor, with the Planner reviewing and supplementing as needed.\n* \"Next Steps and Action Items\" mainly contains specific execution steps written by the Planner for the Executor.\n\n## Workflow Guidelines\n\n* After you receive an initial prompt for a new task, the Planner should instruct the Executor to update the \"Background and Motivation\" section and perform any needed planning.\n* The Planner should think deeply about the problem, breaking it down into manageable tasks and defining clear success criteria. The Planner should record this analysis in sections like \"Key Challenges and Analysis,\" \"Verifiable Success Criteria,\" or \"High-level Task Breakdown.\"\n* The Executor is responsible for all tool calls and implementation tasks. The Planner should never make tool calls directly.\n* The Executor should always update the \"Current Status / Progress Tracking\" and \"Executor\x27s Feedback or Assistance Requests\" sections in the `Multi-Agent Scratchpad` after completing tasks or encountering issues.\n* The Executor is also responsible for updating the `Lessons` section with new learnings from the project.\n* If unclear whether Planner or Executor is speaking, declare your current role in the output prompt.\n* Continue the cycle unless the Planner explicitly indicates the entire project is complete or stopped. Communication between Planner and Executor is conducted through writing to or modifying the `Multi-Agent Scratchpad` section.\n\n## Stopping Conditions\nThe process should stop and complete when:\n1. All success criteria in the scratchpad have been met\n2. No new information can be obtained through further actions\n3. The user\x27s original question has been fully answered\n4. The Executor reports inability to proceed (in feedback section)\n\nPlease note:\n\n* Task completion should only be announced by the Planner, not the Executor. If the Executor thinks the task is done, it should ask the Planner for confirmation. Then the Planner needs to do some cross-checking.\n* Avoid rewriting the entire document unless necessary;\n* Avoid deleting records left by other roles; you can append new paragraphs or mark old paragraphs as outdated;\n* When new external information is needed, the Planner should ask the Executor to gather this information using the available tools;\n* Before executing any large-scale changes or critical functionality, the Executor should first notify the Planner in \"Executor\x27s Feedback or Assistance Requests\" to ensure everyone understands the consequences.\n* During your interaction with the user, if you find anything reusable in this project (e.g. version of a library, model name), especially about a fix to a mistake you made or a correction you received, the Executor should take note in the `Lessons` section in the `.cursorrules` file so you will not make the same mistake again.\n\n# Lessons\n\n## User Specified Lessons\n\n- You have a python venv in ./venv. Use it.\n- Include info useful for debugging in the program output.\n- Read the file before you try to edit it.\n- Due to Cursor\x27s limit, when you use `git` and `gh` and need to submit a multiline commit message, first write the message in a file, and then use `git commit -F <filename>` or similar command to commit. And then remove the file. Include \"[Cursor] \" in the commit message and PR title.\n- Always work in the good_will_hunter directory, which is the main code repository. Do not operate in wrong directories.\n- **ALWAYS** check your current location in the terminal before running any commands using `pwd`. This prevents executing commands in the wrong directory.\n- **ALWAYS** ask the user which virtual environment folder to use (e.g. venv, open, etc.) before activating any Python environment. Don\x27t make assumptions about which venv to use.\n- Final reports must be professional, thorough, and well-organized:\n  * Consolidate all insights from MCTS iterations into a cohesive narrative\n  * Focus on high-level insights and findings, not the iteration process\n  * Include only final visualizations and data enrichments, not code execution details\n  * Use proper formatting with clear sections, headings, and visual organization\n  * Ensure all data sources and references are properly cited\n  * Present information in a logical flow with executive summary, main findings, and conclusions\n  * Include relevant charts, diagrams, and visualizations from final scripts only\n  * Maintain consistent formatting and professional appearance throughout\n\n## Cursor learned\n\n(This section can be updated by the Executor as new learnings emerge during project execution)\n\n# FYI, below is the format of the Multi-Agent Scratchpad\n\n## Background and Motivation\n(Planner writes: User/business requirements, macro objectives, why this problem needs to be solved)\n\n## Key Challenges and Analysis\n(Planner: Records of technical barriers, resource constraints, potential risks)\n\n## Core User Flow and Value Chain\n(Executor supplements: Core user process and value chain analysis)\n\n## Verifiable Success Criteria\n(Planner: List measurable or verifiable goals to be achieved)\n\n## High-level Task Breakdown\n(Planner: List subtasks by phase, or break down into modules)\n\n## Current Status / Progress Tracking\n(Executor: Update completion status after each subtask. If needed, use bullet points or tables to show Done/In progress/Blocked status)\n\n## Executor\x27s Feedback or Assistance Requests\n(Executor: Write here when encountering blockers, questions, or need for more information during execution)\n\n## Next Steps and Action Items\n(Planner: Specific arrangements for the Executor)",
     type := "text" }]

/-- The arguments object of a CallTool request (`request.params.arguments`);
each handler reads the fields it casts out (src/index.ts lines 210-213 and
266-274).  Absent optional fields are `none`. -/
structure ResponseFormat where
  type : String
deriving DecidableEq

/-- Caller-supplied tool arguments. -/
structure ToolArguments where
  messages : List RawMessage
  model : Option String
  reasoning_effort : Option String
  response_format : Option ResponseFormat
deriving DecidableEq

/-- The configuration object passed to `openai.chat.completions.create`;
fields that a handler does not set are `none` (absent). -/
structure ApiConfig where
  messages : List ChatCompletionMessageParam
  model : String
  temperature : Option ℚ
  max_tokens : Option Nat
  reasoning_effort : Option String
  response_format : Option ResponseFormat
deriving DecidableEq

/-- The message inside a returned choice; `content` may be absent/null. -/
structure CompletionMessage where
  content : Option String
deriving DecidableEq

/-- One choice of a downstream completion result. -/
structure Choice where
  message : Option CompletionMessage
deriving DecidableEq

/-- A downstream completion result. -/
structure Completion where
  choices : List Choice
deriving DecidableEq

/-- One text block of the response envelope. -/
structure TextContent where
  type : String
  text : String
deriving DecidableEq

/-- The uniform response envelope `\x7bcontent, isError?\x7d` returned by both
handlers (src/index.ts lines 202-205); `isError = none` means the key is
absent, i.e. success. -/
structure ToolResponse where
  content : List TextContent
  isError : Option Bool
deriving DecidableEq

/-- Protocol error codes (only the one the dispatcher uses). -/
inductive ErrorCode where
  | MethodNotFound
deriving DecidableEq

/-- Outcome of dispatching a CallTool request: either a response envelope,
or a thrown `McpError` that propagates to the transport. -/
inductive DispatchResult where
  | envelope (resp : ToolResponse)
  | mcpError (code : ErrorCode) (message : String)
deriving DecidableEq

/-- A CallTool request: tool name plus arguments. -/
structure CallToolRequest where
  name : String
  arguments : ToolArguments
deriving DecidableEq

/-- Message translation of the `openai_chat` handler
(src/index.ts lines 221-236): a developer-role message is down-converted
to an assistant message (array content joined with newlines); every other
message passes through with role and content unchanged. -/
def translateChatMessage (msg : RawMessage) : ChatCompletionMessageParam :=
  if msg.role = "developer" then
    { role := "assistant",
      content := MsgContent.str
        (match msg.content with
          | MsgContent.str s => s
          | MsgContent.parts ps => String.intercalate "\n" (ps.map fun part => part.text)) }
  else
    { role := msg.role, content := msg.content }

/-- Message translation of the `openai_plan` handler
(src/index.ts lines 282-314). -/
def translatePlanMessage (msg : RawMessage) : ChatCompletionMessageParam :=
  if msg.role = "developer" then
    { role := "developer", content := MsgContent.parts DEFAULT_DEVELOPER_CONTENT }
  else
    match msg.content with
    | MsgContent.str s =>
        if msg.role = "system" then { role := "system", content := MsgContent.str s }
        else if msg.role = "user" then { role := "user", content := MsgContent.str s }
        else if msg.role = "assistant" then { role := "assistant", content := MsgContent.str s }
        else { role := "user", content := MsgContent.str s }
    | MsgContent.parts ps =>
        if msg.role = "user" then
          { role := "user",
            content := MsgContent.parts (ps.map fun part => { type := part.type, text := part.text }) }
        else if msg.role = "assistant" then
          { role := "assistant",
            content := MsgContent.parts (ps.map fun part => { type := part.type, text := part.text }) }
        else { role := "user", content := MsgContent.str "Invalid content format" }

/-- Extraction of the response text:
`completion.choices[0]?.message?.content || "No response received"`
(src/index.ts lines 250 and 335); an absent choice, message or content,
or an empty string, all yield the placeholder. -/
def extractResponseText (completion : Completion) : String :=
  match completion.choices.head? with
  | none => "No response received"
  | some choice =>
      match choice.message with
      | none => "No response received"
      | some msg =>
          match msg.content with
          | none => "No response received"
          | some s => if s = "" then "No response received" else s

/-- The configuration the chat handler passes downstream
(src/index.ts lines 239-244): translated messages, the validated model,
temperature 0.7 and max_tokens 2000; no reasoning_effort and no
response_format. -/
def chatApiConfig (args : ToolArguments) (m : String) : ApiConfig :=
  { messages := args.messages.map translateChatMessage,
    model := m,
    temperature := some ((7 : ℚ) / 10),
    max_tokens := some 2000,
    reasoning_effort := none,
    response_format := none }

/-- The configuration the plan handler passes downstream
(src/index.ts lines 318-327): translated messages, the defaulted model,
response_format hard-coded to text, reasoning_effort only when non-empty,
and no temperature or max_tokens. -/
def planApiConfig (args : ToolArguments) : ApiConfig :=
  { messages := args.messages.map translatePlanMessage,
    model := args.model.getD "o1-2024-12-17",
    temperature := none,
    max_tokens := none,
    reasoning_effort :=
      if args.reasoning_effort.getD DEFAULT_REASONING_EFFORT = "" then none
      else some (args.reasoning_effort.getD DEFAULT_REASONING_EFFORT),
    response_format := some { type := "text" } }

/-- The body of the `openai_chat` handler up to the catch block
(src/index.ts lines 208-252).  Returns the configurations sent downstream
together with either the success envelope or the raised error message.
`SUPPORTED_MODELS.includes(model!)` is false when `model` is absent, and
the template literal then renders `model` as the string `undefined`. -/
def openai_chat_run (args : ToolArguments)
    (complete : ApiConfig → Except String Completion) :
    List ApiConfig × Except String ToolResponse :=
  match args.model with
  | none =>
      ([], Except.error ("Unsupported model: undefined. Must be one of: " ++
        String.intercalate ", " SUPPORTED_MODELS))
  | some m =>
      if SUPPORTED_MODELS.contains m then
        match complete (chatApiConfig args m) with
        | Except.ok completion =>
            ([chatApiConfig args m],
              Except.ok { content := [{ type := "text", text := extractResponseText completion }],
                          isError := none })
        | Except.error e => ([chatApiConfig args m], Except.error e)
      else
        ([], Except.error ("Unsupported model: " ++ m ++ ". Must be one of: " ++
          String.intercalate ", " SUPPORTED_MODELS))

/-- The body of the `openai_plan` handler up to the catch block
(src/index.ts lines 265-337): the model defaults to `o1-2024-12-17`,
validation is against `PLAN_REASONING_MODELS`, and `reasoning_effort`
(default low) is attached only when it is truthy, i.e. non-empty. -/
def openai_plan_run (args : ToolArguments)
    (complete : ApiConfig → Except String Completion) :
    List ApiConfig × Except String ToolResponse :=
  if PLAN_REASONING_MODELS.contains (args.model.getD "o1-2024-12-17") then
    match complete (planApiConfig args) with
    | Except.ok completion =>
        ([planApiConfig args],
          Except.ok { content := [{ type := "text", text := extractResponseText completion }],
                      isError := none })
    | Except.error e => ([planApiConfig args], Except.error e)
  else
    ([], Except.error ("Unsupported model for reasoning: " ++ args.model.getD "o1-2024-12-17" ++
      ". Must be one of: o1-preview, o1-mini, o1-2024-12-17"))

/-- The catch block shared by both handlers (src/index.ts lines 253-261
and 338-346): a raised error becomes an envelope with `isError: true`. -/
def errorEnvelope (e : String) : ToolResponse :=
  { content := [{ type := "text", text := "OpenAI API error: " ++ e }], isError := some true }

/-- The full `openai_chat` handler: body plus catch block. -/
def openai_chat_core (args : ToolArguments)
    (complete : ApiConfig → Except String Completion) :
    List ApiConfig × ToolResponse :=
  ((openai_chat_run args complete).1,
    match (openai_chat_run args complete).2 with
    | Except.ok resp => resp
    | Except.error e => errorEnvelope e)

/-- The response of the `openai_chat` handler. -/
def openai_chat (args : ToolArguments)
    (complete : ApiConfig → Except String Completion) : ToolResponse :=
  (openai_chat_core args complete).2

/-- The full `openai_plan` handler: body plus catch block. -/
def openai_plan_core (args : ToolArguments)
    (complete : ApiConfig → Except String Completion) :
    List ApiConfig × ToolResponse :=
  ((openai_plan_run args complete).1,
    match (openai_plan_run args complete).2 with
    | Except.ok resp => resp
    | Except.error e => errorEnvelope e)

/-- The response of the `openai_plan` handler. -/
def openai_plan (args : ToolArguments)
    (complete : ApiConfig → Except String Completion) : ToolResponse :=
  (openai_plan_core args complete).2

/-- The CallTool dispatcher (src/index.ts lines 202-354): two handled tool
names; any other name raises `McpError(ErrorCode.MethodNotFound, ...)`. -/
def handleCallTool (req : CallToolRequest)
    (complete : ApiConfig → Except String Completion) :
    List ApiConfig × DispatchResult :=
  if req.name = "openai_chat" then
    ((openai_chat_core req.arguments complete).1,
      DispatchResult.envelope (openai_chat_core req.arguments complete).2)
  else if req.name = "openai_plan" then
    ((openai_plan_core req.arguments complete).1,
      DispatchResult.envelope (openai_plan_core req.arguments complete).2)
  else
    ([], DispatchResult.mcpError ErrorCode.MethodNotFound ("Unknown tool: " ++ req.name))

/-- A downstream service that always returns the given completion. -/
def completeWith (c : Completion) : ApiConfig → Except String Completion :=
  fun _ => Except.ok c

/-- A downstream service returning a completion with no choices. -/
def completeEmpty : ApiConfig → Except String Completion :=
  completeWith { choices := [] }

/-- Whether a completion offers no extractable text in its first choice
(no choice, no message, no content, or empty content); mirrors the falsy
test of the extraction expression. -/
def noExtractableText (completion : Completion) : Bool :=
  match completion.choices.head? with
  | none => true
  | some choice =>
      match choice.message with
      | none => true
      | some msg =>
          match msg.content with
          | none => true
          | some s => s == ""

theorem plan_core_calls_eq (args : ToolArguments)
    (complete : ApiConfig → Except String Completion) (cfg : ApiConfig)
    (hcfg : cfg ∈ (openai_plan_core args complete).1) :
    cfg = planApiConfig args := by
  have h : cfg ∈ (openai_plan_run args complete).1 := hcfg
  unfold openai_plan_run at h
  split at h
  · split at h
    · exact List.mem_singleton.mp h
    · exact List.mem_singleton.mp h
  · exact absurd h (List.not_mem_nil cfg)

theorem chat_core_calls_eq (args : ToolArguments)
    (complete : ApiConfig → Except String Completion) (cfg : ApiConfig)
    (hcfg : cfg ∈ (openai_chat_core args complete).1) :
    ∃ m, args.model = some m ∧ cfg = chatApiConfig args m := by
  have h : cfg ∈ (openai_chat_run args complete).1 := hcfg
  unfold openai_chat_run at h
  split at h
  · exact absurd h (List.not_mem_nil cfg)
  · rename_i m heq
    refine ⟨m, heq, ?_⟩
    split at h
    · split at h
      · exact List.mem_singleton.mp h
      · exact List.mem_singleton.mp h
    · exact absurd h (List.not_mem_nil cfg)

/-- Claim C1: for every `openai_plan` call, every input message whose role is
`developer` is translated into a downstream message whose content is exactly
the fixed embedded instructional document `DEFAULT_DEVELOPER_CONTENT`,
independent of the caller-supplied content of that message. -/
theorem plan_developer_fixed_content (args : ToolArguments)
    (complete : ApiConfig → Except String Completion)
    (i : Nat) (msg : RawMessage) (cfg : ApiConfig)
    (hmsg : args.messages[i]? = some msg)
    (hrole : msg.role = "developer")
    (hcfg : cfg ∈ (openai_plan_core args complete).1) :
    cfg.messages[i]? =
      some { role := "developer", content := MsgContent.parts DEFAULT_DEVELOPER_CONTENT } := by
  rw [plan_core_calls_eq args complete cfg hcfg]
  simp [planApiConfig, hmsg, translatePlanMessage, hrole]

def argsDevW : ToolArguments :=
  { messages := [{ role := "developer", content := MsgContent.str "caller text" }],
    model := some "o1-mini",
    reasoning_effort := none,
    response_format := none }

theorem plan_developer_fixed_content_witness :
    (planApiConfig argsDevW).messages[0]? =
      some { role := "developer", content := MsgContent.parts DEFAULT_DEVELOPER_CONTENT } :=
  plan_developer_fixed_content argsDevW completeEmpty 0
    { role := "developer", content := MsgContent.str "caller text" }
    (planApiConfig argsDevW) rfl rfl (List.mem_singleton.mpr rfl)

/-- Claim C2: every `openai_plan` call whose model argument is outside
the validated set returns the error envelope (text prefixed with
`OpenAI API error:`) and makes no downstream call. -/
theorem plan_invalid_model_rejected (args : ToolArguments)
    (complete : ApiConfig → Except String Completion) (m : String)
    (hm : args.model = some m)
    (hnot : PLAN_REASONING_MODELS.contains m = false) :
    openai_plan_core args complete =
      ([],
        { content :=
            [{ type := "text",
               text := "OpenAI API error: " ++ ("Unsupported model for reasoning: " ++ m ++
                 ". Must be one of: o1-preview, o1-mini, o1-2024-12-17") }],
          isError := some true }) := by
  unfold openai_plan_core openai_plan_run
  rw [hm]
  have hmem : m ∉ PLAN_REASONING_MODELS := by simpa using hnot
  simp [hmem, errorEnvelope]

theorem plan_invalid_model_rejected_witness :
    openai_plan_core
        { messages := [{ role := "user", content := MsgContent.str "hi" }],
          model := some "o3-mini", reasoning_effort := none, response_format := none }
        completeEmpty =
      ([],
        { content :=
            [{ type := "text",
               text := "OpenAI API error: " ++ ("Unsupported model for reasoning: " ++ "o3-mini" ++
                 ". Must be one of: o1-preview, o1-mini, o1-2024-12-17") }],
          isError := some true }) :=
  plan_invalid_model_rejected
    { messages := [{ role := "user", content := MsgContent.str "hi" }],
      model := some "o3-mini", reasoning_effort := none, response_format := none }
    completeEmpty "o3-mini" rfl (by decide)

/-- Claim C3 (divergence exhibit): an `openai_chat` call with the model
argument omitted is rejected with the error envelope and makes no
downstream call, even though `DEFAULT_CHAT_MODEL` is `gpt-4o`; the
handler never applies the advertised default. -/
theorem chat_omitted_model_is_rejected :
    openai_chat_core
        { messages := [{ role := "user", content := MsgContent.str "hi" }],
          model := none, reasoning_effort := none, response_format := none }
        completeEmpty =
      ([],
        { content :=
            [{ type := "text",
               text := "OpenAI API error: " ++ ("Unsupported model: undefined. Must be one of: " ++
                 String.intercalate ", " SUPPORTED_MODELS) }],
          isError := some true }) ∧
    DEFAULT_CHAT_MODEL = "gpt-4o" :=
  ⟨rfl, rfl⟩

/-- Claim C5: every configuration the `openai_plan` handler sends downstream
has `response_format` forced to text and carries no temperature and no
max_tokens. -/
theorem plan_forced_response_format (args : ToolArguments)
    (complete : ApiConfig → Except String Completion) (cfg : ApiConfig)
    (hcfg : cfg ∈ (openai_plan_core args complete).1) :
    cfg.response_format = some { type := "text" } ∧
    cfg.temperature = none ∧ cfg.max_tokens = none := by
  rw [plan_core_calls_eq args complete cfg hcfg]
  exact ⟨rfl, rfl, rfl⟩

def argsPlanW : ToolArguments :=
  { messages := [{ role := "user", content := MsgContent.str "hi" }],
    model := none, reasoning_effort := none, response_format := none }

theorem plan_forced_response_format_witness :
    (planApiConfig argsPlanW).response_format = some { type := "text" } ∧
    (planApiConfig argsPlanW).temperature = none ∧
    (planApiConfig argsPlanW).max_tokens = none :=
  plan_forced_response_format argsPlanW completeEmpty (planApiConfig argsPlanW)
    (List.mem_singleton.mpr rfl)

/-- Claim C4: for both tools, every error raised by the handler body is
caught at the handler boundary and converted into the
`OpenAI API error:` envelope with `isError: true`; the handler always
returns an envelope, never a protocol-level failure. -/
theorem domain_errors_wrapped (args : ToolArguments)
    (complete : ApiConfig → Except String Completion) (e : String) :
    ((openai_chat_run args complete).2 = Except.error e →
        openai_chat args complete =
          { content := [{ type := "text", text := "OpenAI API error: " ++ e }],
            isError := some true }) ∧
    ((openai_plan_run args complete).2 = Except.error e →
        openai_plan args complete =
          { content := [{ type := "text", text := "OpenAI API error: " ++ e }],
            isError := some true }) := by
  constructor
  · intro h
    simp [openai_chat, openai_chat_core, h, errorEnvelope]
  · intro h
    simp [openai_plan, openai_plan_core, h, errorEnvelope]

theorem domain_errors_wrapped_witness :
    openai_chat argsPlanW completeEmpty =
      { content :=
          [{ type := "text",
             text := "OpenAI API error: " ++ ("Unsupported model: undefined. Must be one of: " ++
               String.intercalate ", " SUPPORTED_MODELS) }],
        isError := some true } :=
  (domain_errors_wrapped argsPlanW completeEmpty
    ("Unsupported model: undefined. Must be one of: " ++
      String.intercalate ", " SUPPORTED_MODELS)).1 rfl

/-- Claim C6: an `openai_chat` message list containing only
system/user/assistant roles with string content is sent downstream
unchanged: same length, same order, same role and content values. -/
theorem chat_translation_roundtrip (args : ToolArguments)
    (complete : ApiConfig → Except String Completion) (cfg : ApiConfig)
    (h : ∀ msg ∈ args.messages,
        (msg.role = "system" ∨ msg.role = "user" ∨ msg.role = "assistant") ∧
        msg.content.isStr = true)
    (hcfg : cfg ∈ (openai_chat_core args complete).1) :
    cfg.messages = args.messages := by
  obtain ⟨m, hm, hc⟩ := chat_core_calls_eq args complete cfg hcfg
  rw [hc]
  show args.messages.map translateChatMessage = args.messages
  have key : ∀ msg ∈ args.messages, translateChatMessage msg = msg := by
    intro msg hmsg
    obtain ⟨hrole, -⟩ := h msg hmsg
    have hnd : msg.role ≠ "developer" := by
      rcases hrole with h1 | h1 | h1 <;> rw [h1] <;> decide
    unfold translateChatMessage
    rw [if_neg hnd]
  have gen : ∀ l : List RawMessage,
      (∀ msg ∈ l, translateChatMessage msg = msg) → l.map translateChatMessage = l := by
    intro l
    induction l with
    | nil => intro _; rfl
    | cons a t ih =>
        intro hl
        rw [List.map_cons, hl a (List.mem_cons_self a t),
          ih fun msg hm2 => hl msg (List.mem_cons_of_mem a hm2)]
  exact gen args.messages key

def argsChatW : ToolArguments :=
  { messages :=
      [{ role := "system", content := MsgContent.str "be brief" },
       { role := "user", content := MsgContent.str "hi" }],
    model := some "gpt-4o", reasoning_effort := none, response_format := none }

theorem chat_translation_roundtrip_witness :
    (chatApiConfig argsChatW "gpt-4o").messages = argsChatW.messages :=
  chat_translation_roundtrip argsChatW completeEmpty (chatApiConfig argsChatW "gpt-4o")
    (by decide) (List.mem_singleton.mpr rfl)

/-- Claim C7: in the plan translator, a message matching no handled
role/content case becomes a user message whose content is the original
string when the content was a string, and the literal
`Invalid content format` placeholder otherwise. -/
theorem plan_translation_fallback (msg : RawMessage)
    (hdev : msg.role ≠ "developer") :
    (∀ s, msg.content = MsgContent.str s →
        msg.role ≠ "system" → msg.role ≠ "user" → msg.role ≠ "assistant" →
        translatePlanMessage msg = { role := "user", content := MsgContent.str s }) ∧
    (∀ ps, msg.content = MsgContent.parts ps →
        msg.role ≠ "user" → msg.role ≠ "assistant" →
        translatePlanMessage msg = { role := "user", content := MsgContent.str "Invalid content format" }) := by
  unfold translatePlanMessage
  rw [if_neg hdev]
  constructor
  · intro s hs h1 h2 h3
    rw [hs]
    simp [if_neg h1, if_neg h2, if_neg h3]
  · intro ps hps h1 h2
    rw [hps]
    simp [if_neg h1, if_neg h2]

theorem plan_translation_fallback_witness :
    translatePlanMessage { role := "tool", content := MsgContent.str "x" } =
      { role := "user", content := MsgContent.str "x" } ∧
    translatePlanMessage { role := "system", content := MsgContent.parts [{ type := "text", text := "y" }] } =
      { role := "user", content := MsgContent.str "Invalid content format" } :=
  ⟨(plan_translation_fallback { role := "tool", content := MsgContent.str "x" }
      (by decide)).1 "x" rfl (by decide) (by decide) (by decide),
   (plan_translation_fallback { role := "system", content := MsgContent.parts [{ type := "text", text := "y" }] }
      (by decide)).2 [{ type := "text", text := "y" }] rfl (by decide) (by decide)⟩

/-- Claim C8: for both tools, a downstream completion whose first choice
offers no extractable text yields a success envelope (isError absent)
carrying the literal placeholder, never an error envelope. -/
theorem no_text_reported_as_success (argsC argsP : ToolArguments)
    (comp : Completion) (mC mP : String)
    (hmC : argsC.model = some mC) (hC : SUPPORTED_MODELS.contains mC = true)
    (hmP : argsP.model = some mP) (hP : PLAN_REASONING_MODELS.contains mP = true)
    (hno : noExtractableText comp = true) :
    openai_chat argsC (completeWith comp) =
      { content := [{ type := "text", text := "No response received" }], isError := none } ∧
    openai_plan argsP (completeWith comp) =
      { content := [{ type := "text", text := "No response received" }], isError := none } := by
  have hext : extractResponseText comp = "No response received" := by
    obtain ⟨choices⟩ := comp
    cases choices with
    | nil => rfl
    | cons ch rest =>
        obtain ⟨m⟩ := ch
        cases m with
        | none => rfl
        | some cmsg =>
            obtain ⟨c⟩ := cmsg
            cases c with
            | none => rfl
            | some s =>
                have hs : s = "" := by simpa [noExtractableText] using hno
                subst hs
                rfl
  have hCmem : mC ∈ SUPPORTED_MODELS := by simpa using hC
  have hPmem : mP ∈ PLAN_REASONING_MODELS := by simpa using hP
  constructor
  · simp [openai_chat, openai_chat_core, openai_chat_run, hmC, hCmem, completeWith, hext]
  · simp [openai_plan, openai_plan_core, openai_plan_run, hmP, hPmem, completeWith, hext]

def argsPlanO1W : ToolArguments :=
  { messages := [{ role := "user", content := MsgContent.str "hi" }],
    model := some "o1-preview", reasoning_effort := none, response_format := none }

theorem no_text_reported_as_success_witness :
    openai_chat argsChatW (completeWith { choices := [] }) =
      { content := [{ type := "text", text := "No response received" }], isError := none } ∧
    openai_plan argsPlanO1W (completeWith { choices := [] }) =
      { content := [{ type := "text", text := "No response received" }], isError := none } :=
  no_text_reported_as_success argsChatW argsPlanO1W { choices := [] } "gpt-4o" "o1-preview"
    rfl (by decide) rfl (by decide) rfl

/-- Claim C9: a CallTool request whose name is neither `openai_chat` nor
`openai_plan` raises the method-not-found protocol error, produces no
envelope, and makes no downstream call. -/
theorem unknown_tool_method_not_found (req : CallToolRequest)
    (complete : ApiConfig → Except String Completion)
    (h1 : req.name ≠ "openai_chat") (h2 : req.name ≠ "openai_plan") :
    handleCallTool req complete =
      ([], DispatchResult.mcpError ErrorCode.MethodNotFound ("Unknown tool: " ++ req.name)) := by
  unfold handleCallTool
  rw [if_neg h1, if_neg h2]

theorem unknown_tool_method_not_found_witness :
    handleCallTool { name := "unknown_tool", arguments := argsPlanW } completeEmpty =
      ([], DispatchResult.mcpError ErrorCode.MethodNotFound ("Unknown tool: " ++ "unknown_tool")) :=
  unknown_tool_method_not_found { name := "unknown_tool", arguments := argsPlanW }
    completeEmpty (by decide) (by decide)

/-- Claim C10: an `openai_chat` call with the model argument omitted fails
validation (the advertised gpt-4o default is never applied) and makes no
downstream call, while an `openai_plan` call with the model omitted
defaults to `o1-2024-12-17`, passes validation, and reaches the
downstream call with that model. -/
theorem chat_no_default_plan_default (argsC argsP : ToolArguments)
    (complete : ApiConfig → Except String Completion)
    (hC : argsC.model = none) (hP : argsP.model = none) :
    openai_chat_core argsC complete =
      ([],
        { content :=
            [{ type := "text",
               text := "OpenAI API error: " ++ ("Unsupported model: undefined. Must be one of: " ++
                 String.intercalate ", " SUPPORTED_MODELS) }],
          isError := some true }) ∧
    (openai_plan_core argsP complete).1.map ApiConfig.model = ["o1-2024-12-17"] := by
  constructor
  · unfold openai_chat_core openai_chat_run
    rw [hC]
    rfl
  · unfold openai_plan_core openai_plan_run
    rw [hP]
    simp only [Option.getD_none]
    cases hcomp : complete (planApiConfig argsP) with
    | ok c => simp [hcomp, planApiConfig, hP, PLAN_REASONING_MODELS]
    | error e => simp [hcomp, planApiConfig, hP, PLAN_REASONING_MODELS]

theorem chat_no_default_plan_default_witness :
    openai_chat_core argsPlanW completeEmpty =
      ([],
        { content :=
            [{ type := "text",
               text := "OpenAI API error: " ++ ("Unsupported model: undefined. Must be one of: " ++
                 String.intercalate ", " SUPPORTED_MODELS) }],
          isError := some true }) ∧
    (openai_plan_core argsPlanW completeEmpty).1.map ApiConfig.model = ["o1-2024-12-17"] :=
  chat_no_default_plan_default argsPlanW argsPlanW completeEmpty rfl rfl
